import Mathlib

/-!
Verification development for the CDC health-data ETL pipeline
(src/pipeline_etl.py and src/data_query.py), as a shallow embedding.

Scalar cell values of a pandas DataFrame / JSON record are modelled by
the inductive type Value: JSON null and pandas NaN/NaT collapse to
Value.null, strings to Value.str, numbers to Value.num, and parsed
pandas Timestamps to Value.date (year, month, day).
-/

/-- A scalar cell value: null/NaN/NaT, a string, a number, or a parsed
calendar date (pandas Timestamp). -/
inductive Value where
  | null : Value
  | str : String → Value
  | num : Int → Value
  | date : Nat → Nat → Nat → Value
  deriving Repr, DecidableEq

/-- A raw row, as decoded from the JSON array of objects: an ordered
association of field name to value (pd.DataFrame row). -/
abbrev RawRecord := List (String × Value)

/-- An ordered sequence of raw rows (the DataFrame built by extract_data). -/
abbrev RawDataset := List RawRecord

/-- DataFrame cell access: the value of column k in row r; a row that
lacks the key reads as NaN (DataFrames are rectangular over the union
of keys, absent cells are null). -/
def getVal (r : RawRecord) (k : String) : Value :=
  match List.lookup k r with
  | some v => v
  | none => Value.null

/-- Column assignment on one row (the row-wise effect of
data[k] = ...): replace the first binding of k, or append one. -/
def setField : RawRecord → String → Value → RawRecord
  | [], k, v => [(k, v)]
  | (k', v') :: rest, k, v =>
    if k' = k then (k, v) :: rest else (k', v') :: setField rest k v

/-- A column exists in the DataFrame iff some row carries the key
(pandas builds the column set as the union of the records' keys). -/
def hasCol (d : RawDataset) (c : String) : Bool :=
  d.any (fun r => (List.lookup c r).isSome)

/-- Days in a month of the (proleptic Gregorian) calendar. -/
def daysInMonth (y m : Nat) : Nat :=
  if m = 2 then
    if y % 4 = 0 ∧ (y % 100 ≠ 0 ∨ y % 400 = 0) then 29 else 28
  else if m = 4 ∨ m = 6 ∨ m = 9 ∨ m = 11 then 30
  else 31

/-- Split a character list at every occurrence of the separator. -/
def splitOnChar (c : Char) : List Char → List (List Char)
  | [] => [[]]
  | ch :: rest =>
    match splitOnChar c rest with
    | [] => if ch = c then [[], []] else [[ch]]
    | g :: gs => if ch = c then [] :: g :: gs else (ch :: g) :: gs

/-- Read a non-empty all-digit character list as a natural number. -/
def digitsToNat (cs : List Char) : Option Nat :=
  if cs ≠ [] ∧ cs.all Char.isDigit then
    some (cs.foldl (fun n c => n * 10 + (c.toNat - 48)) 0)
  else none

/-- Parse an ISO "YYYY-MM-DD" date string, the format the CDC endpoint
emits for its date column. -/
def parseISODate (s : String) : Option (Nat × Nat × Nat) :=
  match splitOnChar '-' s.toList with
  | [ys, ms, ds] =>
    match digitsToNat ys, digitsToNat ms, digitsToNat ds with
    | some y, some m, some d =>
      if 1 ≤ m ∧ m ≤ 12 ∧ 1 ≤ d ∧ d ≤ daysInMonth y m then some (y, m, d)
      else none
    | _, _, _ => none
  | _ => none

/-- Models pd.to_datetime(v, errors="coerce") on one cell: a parseable
date string becomes a Timestamp, anything unparseable (and NaN) is
coerced to NaT (Value.null), an already-parsed Timestamp is kept.
Modelling restriction: pandas additionally accepts non-ISO string
formats and interprets in-range integers as epoch offsets; we model
those inputs as coerced to NaT.  No claim depends on which particular
inputs parse, only on the parseable/NaT dichotomy. -/
def to_datetime (v : Value) : Value :=
  match v with
  | Value.str s =>
    match parseISODate s with
    | some (y, m, d) => Value.date y m d
    | none => Value.null
  | Value.date y m d => Value.date y m d
  | Value.num _ => Value.null
  | Value.null => Value.null

/-- Row-wise effect of the in-place date coercion
data["date"] = pd.to_datetime(data["date"], errors="coerce"). -/
def coerceRow (r : RawRecord) : RawRecord :=
  setField r "date" (to_datetime (getVal r "date"))

/-- The column-selection list of transform_data (source order). -/
def columnsList : List String :=
  ["date", "recip_county", "recip_state", "series_complete_pop_pct",
   "administered_dose1_recip", "administered_dose1_pop_pct"]

/-- Column projection data[columns]: keep exactly the declared columns,
in declared order (absent cells read as null). -/
def projectRow (r : RawRecord) : RawRecord :=
  columnsList.map (fun c => (c, getVal r c))

/-- The rename table of transform_data (data.rename(columns=...)). -/
def renameCol (c : String) : String :=
  if c = "recip_county" then "county"
  else if c = "recip_state" then "state"
  else if c = "series_complete_pop_pct" then "fully_vaccinated_pct"
  else if c = "administered_dose1_recip" then "at_least_one_dose"
  else if c = "administered_dose1_pop_pct" then "one_dose_pct"
  else c

/-- Apply the rename table to a row's keys. -/
def renameRow (r : RawRecord) : RawRecord :=
  r.map (fun kv => (renameCol kv.1, kv.2))

/-- Missing-value fill of one cell: data.fillna(0) replaces every
null/NaN/NaT with the number 0 (pandas coerces the datetime column to
object dtype in order to hold the integer fill value). -/
def fill0 (v : Value) : Value :=
  if v = Value.null then Value.num 0 else v

/-- Apply the fill to every projected cell of a row (data.fillna(0)). -/
def fillRow (r : RawRecord) : RawRecord :=
  r.map (fun kv => (kv.1, fill0 kv.2))

/-- The fixed output schema of transform_data: one cleaned record with
the six projected-and-renamed columns. -/
structure CleanRecord where
  date : Value
  county : Value
  state : Value
  fully_vaccinated_pct : Value
  at_least_one_dose : Value
  one_dose_pct : Value
  deriving Repr, DecidableEq

/-- View a fully transformed row (projected, renamed, filled) through
the fixed output schema. -/
def toCleanRecord (r : RawRecord) : CleanRecord :=
  { date := getVal r "date"
    county := getVal r "county"
    state := getVal r "state"
    fully_vaccinated_pct := getVal r "fully_vaccinated_pct"
    at_least_one_dose := getVal r "at_least_one_dose"
    one_dose_pct := getVal r "one_dose_pct" }

/-- The complete per-row transformation of transform_data:
date coercion, projection, rename, missing-value fill, schema view. -/
def processRow (r : RawRecord) : CleanRecord :=
  toCleanRecord (fillRow (renameRow (projectRow (coerceRow r))))

/-- transform_data(data): coerce the date column in place, select the
six relevant columns, rename them, fill missing values with 0, and
drop rows whose county is the empty string.  Accessing a column absent
from the DataFrame raises (KeyError), modelled as Except.error. -/
def transform_data (d : RawDataset) : Except String (List CleanRecord) :=
  if hasCol d "date" = false then Except.error "KeyError: date"
  else if (columnsList.all (fun c => hasCol (d.map coerceRow) c)) = false then
    Except.error "KeyError: missing projected column"
  else
    Except.ok (((((d.map coerceRow).map projectRow).map renameRow).map
      fillRow).filter (fun r => getVal r "county" ≠ Value.str "")
      |>.map toCleanRecord)

/-- The caller's DataFrame after transform_data returns or raises: the
statement data["date"] = pd.to_datetime(...) mutates the argument in
place (it runs before the projection makes a copy); if the date column
is absent the KeyError fires before any mutation. -/
def transform_data_input_after (d : RawDataset) : RawDataset :=
  if hasCol d "date" then d.map coerceRow else d

/-- An HTTP response as extract_data sees it: a status code and the
decoded JSON array-of-objects body. -/
structure HttpResponse where
  status : Nat
  body : RawDataset

/-- The failure raised by extract_data; its message carries the
response status code. -/
structure FetchError where
  status : Nat
  deriving Repr, DecidableEq

/-- extract_data(): one GET request; if response.status_code == 200
return the decoded body as the raw dataset (field names and row order
as received), otherwise raise carrying the status code. -/
def extract_data (resp : HttpResponse) : Except FetchError RawDataset :=
  if resp.status = 200 then Except.ok resp.body
  else Except.error { status := resp.status }

/-- Follows the spec's words only (for comparison with the code):
an HTTP success status is any 2xx code. -/
def specSuccessStatus (s : Nat) : Prop :=
  200 ≤ s ∧ s ≤ 299

instance (s : Nat) : Decidable (specSuccessStatus s) :=
  inferInstanceAs (Decidable (200 ≤ s ∧ s ≤ 299))

/-- Follows the spec's words only (for comparison with the code):
uppercase a field flagged as a state/region code. -/
def specUppercase (v : Value) : Value :=
  match v with
  | Value.str s => Value.str (String.mk (s.toList.map Char.toUpper))
  | v => v

/-- The collection of SQLite database files, each mapping a table name
to its rows; a table that was never written reads as empty. -/
def GlobalStore : Type :=
  String → String → List RawRecord

/-- A cleaned record as the row to_sql writes into the table. -/
def encodeClean (c : CleanRecord) : RawRecord :=
  [("date", c.date), ("county", c.county), ("state", c.state),
   ("fully_vaccinated_pct", c.fully_vaccinated_pct),
   ("at_least_one_dose", c.at_least_one_dose),
   ("one_dose_pct", c.one_dose_pct)]

/-- Observable outcome of one load_data_to_db call: the store after
the call, the returned value or raised error, and whether the sqlite3
connection opened by the call was closed. -/
structure LoadOutcome where
  store : GlobalStore
  result : Except String Unit
  connClosed : Bool

/-- load_data_to_db(data, db_name): open a connection to db_name,
write data as table "vaccinations" with if_exists="replace" (the table
holds exactly these rows afterwards), then close the connection.  The
writeFails flag models an I/O failure raised by to_sql; the code has
no try/finally, so on that path conn.close() is never reached. -/
def load_data_to_db (data : List CleanRecord) (db_name : String)
    (gs : GlobalStore) (writeFails : Bool) : LoadOutcome :=
  if writeFails then
    { store := gs, result := Except.error "LoadError", connClosed := false }
  else
    { store := fun db t =>
        if db = db_name ∧ t = "vaccinations" then data.map encodeClean
        else gs db t
      result := Except.ok ()
      connClosed := true }

/-- The script's main(): extract_data, then transform_data, then
load_data_to_db with its default db_name "vaccination_data.db"; any
step's failure propagates and aborts the run. -/
def mainPipeline (resp : HttpResponse) (gs : GlobalStore) (writeFails : Bool) :
    Except String GlobalStore :=
  match extract_data resp with
  | Except.error e =>
    Except.error ("Failed to fetch data. Status code: " ++ toString e.status)
  | Except.ok raw =>
    match transform_data raw with
    | Except.error e => Except.error e
    | Except.ok clean =>
      match (load_data_to_db clean "vaccination_data.db" gs writeFails).result with
      | Except.error e => Except.error e
      | Except.ok _ =>
        Except.ok (load_data_to_db clean "vaccination_data.db" gs writeFails).store

/-- A row of the covid_cases table as the aggregation reads it. -/
structure CaseRow where
  state : String
  new_case : Int
  deriving Repr, DecidableEq

/-- Read one stored row through the two columns the query touches
(SQLite's dynamic typing viewed through the query's uses: the grouping
key as text, the summand as an integer). -/
def decodeCaseRow (r : RawRecord) : CaseRow :=
  { state :=
      match getVal r "state" with
      | Value.str s => s
      | _ => ""
    new_case :=
      match getVal r "new_case" with
      | Value.num n => n
      | _ => 0 }

/-- SUM(new_case) over the rows of one state's group. -/
def sumState (t : List CaseRow) (s : String) : Int :=
  ((t.filter (fun r => r.state = s)).map CaseRow.new_case).sum

/-- The distinct grouping keys of GROUP BY state. -/
def stateKeys (t : List CaseRow) : List String :=
  (t.map CaseRow.state).dedup

/-- The grouped rows (state, SUM(new_case)) before ordering. -/
def groupedTotals (t : List CaseRow) : List (String × Int) :=
  (stateKeys t).map (fun s => (s, sumState t s))

/-- ORDER BY total_cases DESC: a pair may precede another iff its
total is at least as large. -/
def byTotalDesc (a b : String × Int) : Prop :=
  b.2 ≤ a.2

instance : DecidableRel byTotalDesc :=
  fun a b => inferInstanceAs (Decidable (b.2 ≤ a.2))

instance : IsTotal (String × Int) byTotalDesc :=
  ⟨fun a b => (le_total a.2 b.2).symm.imp (fun h => h) (fun h => h)⟩

instance : IsTrans (String × Int) byTotalDesc :=
  ⟨fun _ _ _ hab hbc => le_trans hbc hab⟩

/-- The SQL aggregation of query_data: GROUP BY state, SUM(new_case),
ORDER BY total_cases DESC, LIMIT 5. -/
def query_aggregate (t : List CaseRow) : List (String × Int) :=
  (List.insertionSort byTotalDesc (groupedTotals t)).take 5

/-- query_data(db_name): connect to db_name (default
"healthcare_data.db"), run the fixed aggregation over its covid_cases
table, and return the (state, total) pairs. -/
def query_data (gs : GlobalStore) (db_name : String) : List (String × Int) :=
  query_aggregate ((gs db_name "covid_cases").map decodeCaseRow)

/-- A fully populated raw row, as the CDC endpoint would return it. -/
def fullRow : RawRecord :=
  [("date", Value.str "2021-01-01"), ("recip_county", Value.str "Adams County"),
   ("recip_state", Value.str "ca"), ("series_complete_pop_pct", Value.num 45),
   ("administered_dose1_recip", Value.num 12000),
   ("administered_dose1_pop_pct", Value.num 55)]

/-- A one-row raw dataset built from fullRow. -/
def dFull : RawDataset := [fullRow]

/-- The cleaned record transform_data produces from fullRow. -/
def recFull : CleanRecord :=
  { date := Value.date 2021 1 1, county := Value.str "Adams County",
    state := Value.str "ca", fully_vaccinated_pct := Value.num 45,
    at_least_one_dose := Value.num 12000, one_dose_pct := Value.num 55 }

/-- A raw row whose recip_county is null (JSON null / absent key). -/
def nullCountyRow : RawRecord :=
  [("date", Value.str "2021-01-01"), ("recip_county", Value.null),
   ("recip_state", Value.str "NY"), ("series_complete_pop_pct", Value.null),
   ("administered_dose1_recip", Value.null),
   ("administered_dose1_pop_pct", Value.null)]

/-- A one-row raw dataset built from nullCountyRow. -/
def dNullCounty : RawDataset := [nullCountyRow]

/-- The cleaned record transform_data produces from nullCountyRow. -/
def recNullCounty : CleanRecord :=
  { date := Value.date 2021 1 1, county := Value.num 0,
    state := Value.str "NY", fully_vaccinated_pct := Value.num 0,
    at_least_one_dose := Value.num 0, one_dose_pct := Value.num 0 }

/-- A raw dataset whose date string is unparseable. -/
def dBadDate : RawDataset := [[("date", Value.str "not-a-date")]]

/-- A store in which every table of every database file is empty. -/
def gsW : GlobalStore := fun _ _ => []

/-- A successful HTTP response carrying dFull. -/
def respW : HttpResponse := { status := 200, body := dFull }

/-- The cleaned dataset obtained from respW's body. -/
def cleanFullRows : List CleanRecord := [recFull]

/-- The store after one successful pipeline run on respW from gsW. -/
def gs1W : GlobalStore :=
  match mainPipeline respW gsW false with
  | Except.ok g => g
  | Except.error _ => gsW

/-- The store after a second successful pipeline run on respW. -/
def gs2W : GlobalStore :=
  match mainPipeline respW gs1W false with
  | Except.ok g => g
  | Except.error _ => gsW

/-- Stored rows of a small covid_cases table. -/
def qRows : List RawRecord :=
  [[("state", Value.str "B"), ("new_case", Value.num 20)],
   [("state", Value.str "A"), ("new_case", Value.num 30)],
   [("state", Value.str "B"), ("new_case", Value.num 30)]]

/-- A store whose healthcare_data.db file holds qRows as covid_cases. -/
def gsQ : GlobalStore :=
  fun db t =>
    if db = "healthcare_data.db" ∧ t = "covid_cases" then qRows else []

lemma lookup_setField_self (r : RawRecord) (k : String) (v : Value) :
    List.lookup k (setField r k v) = some v := by
  induction r with
  | nil => simp [setField, List.lookup]
  | cons kv rest ih =>
    obtain ⟨k', v'⟩ := kv
    by_cases h : k' = k
    · subst h
      simp [setField, List.lookup]
    · have hb : (k == k') = false := beq_eq_false_iff_ne.2 (Ne.symm h)
      simp [setField, h, List.lookup, hb, ih]

lemma lookup_setField_ne (r : RawRecord) (k k' : String) (v : Value)
    (h : k ≠ k') : List.lookup k (setField r k' v) = List.lookup k r := by
  have hb : (k == k') = false := beq_eq_false_iff_ne.2 h
  induction r with
  | nil => simp [setField, List.lookup, hb]
  | cons kv rest ih =>
    obtain ⟨k₀, v₀⟩ := kv
    by_cases h0 : k₀ = k'
    · subst h0
      simp [setField, List.lookup, hb]
    · simp [setField, h0, List.lookup, ih]

lemma getVal_setField_self (r : RawRecord) (k : String) (v : Value) :
    getVal (setField r k v) k = v := by
  simp [getVal, lookup_setField_self]

lemma getVal_setField_ne (r : RawRecord) (k k' : String) (v : Value)
    (h : k ≠ k') : getVal (setField r k' v) k = getVal r k := by
  simp [getVal, lookup_setField_ne _ _ _ _ h]

lemma fill0_ne_null (v : Value) : fill0 v ≠ Value.null := by
  cases v <;> simp [fill0]

lemma processRow_eq (r : RawRecord) :
    processRow r =
      { date := fill0 (to_datetime (getVal r "date"))
        county := fill0 (getVal r "recip_county")
        state := fill0 (getVal r "recip_state")
        fully_vaccinated_pct := fill0 (getVal r "series_complete_pop_pct")
        at_least_one_dose := fill0 (getVal r "administered_dose1_recip")
        one_dose_pct := fill0 (getVal r "administered_dose1_pop_pct") } := by
  have hd : getVal (coerceRow r) "date" = to_datetime (getVal r "date") :=
    getVal_setField_self r "date" _
  have h1 : getVal (coerceRow r) "recip_county" = getVal r "recip_county" :=
    getVal_setField_ne r _ _ _ (by decide)
  have h2 : getVal (coerceRow r) "recip_state" = getVal r "recip_state" :=
    getVal_setField_ne r _ _ _ (by decide)
  have h3 : getVal (coerceRow r) "series_complete_pop_pct" =
      getVal r "series_complete_pop_pct" :=
    getVal_setField_ne r _ _ _ (by decide)
  have h4 : getVal (coerceRow r) "administered_dose1_recip" =
      getVal r "administered_dose1_recip" :=
    getVal_setField_ne r _ _ _ (by decide)
  have h5 : getVal (coerceRow r) "administered_dose1_pop_pct" =
      getVal r "administered_dose1_pop_pct" :=
    getVal_setField_ne r _ _ _ (by decide)
  simp [processRow, toCleanRecord, fillRow, renameRow, projectRow,
    columnsList, renameCol, getVal, List.lookup, hd, h1, h2, h3, h4, h5]
  simp [getVal] at hd h1 h2 h3 h4 h5
  simp [hd, h1, h2, h3, h4, h5]

lemma transform_data_ok {d : RawDataset} {out : List CleanRecord}
    (h : transform_data d = Except.ok out) :
    out = (d.map processRow).filter
      (fun c => c.county ≠ Value.str "") := by
  unfold transform_data at h
  split at h
  · exact absurd h (by simp)
  · split at h
    · exact absurd h (by simp)
    · rw [Except.ok.injEq] at h
      subst h
      rw [List.map_map, List.map_map, List.map_map, List.filter_map,
        List.filter_map, List.map_map]
      simp only [Function.comp_def]
      rfl

lemma processRow_mem_ok {d : RawDataset} {out : List CleanRecord}
    {r : RawRecord} (h : transform_data d = Except.ok out) (hr : r ∈ d)
    (hc : (processRow r).county ≠ Value.str "") : processRow r ∈ out := by
  rw [transform_data_ok h]
  exact List.mem_filter_of_mem (List.mem_map.2 ⟨r, hr, rfl⟩) (by simpa)

lemma mainPipeline_ok {resp : HttpResponse} {gs gs' : GlobalStore}
    (h : mainPipeline resp gs false = Except.ok gs') :
    ∃ raw clean, extract_data resp = Except.ok raw ∧
      transform_data raw = Except.ok clean ∧
      gs' = (load_data_to_db clean "vaccination_data.db" gs false).store := by
  unfold mainPipeline at h
  split at h
  · exact absurd h (by simp)
  next raw hraw =>
    split at h
    · exact absurd h (by simp)
    next clean hclean =>
      refine ⟨raw, clean, hraw, hclean, ?_⟩
      simp [load_data_to_db] at h ⊢
      exact h.symm

lemma groupedTotals_mem {t : List CaseRow} {p : String × Int}
    (hp : p ∈ groupedTotals t) : p.2 = sumState t p.1 := by
  rcases List.mem_map.1 hp with ⟨s, _, rfl⟩
  rfl

lemma query_aggregate_subset (t : List CaseRow) :
    query_aggregate t ⊆ groupedTotals t := by
  intro p hp
  exact (List.perm_insertionSort byTotalDesc (groupedTotals t)).subset
    (List.mem_of_mem_take hp)

lemma query_aggregate_length (t : List CaseRow) :
    (query_aggregate t).length ≤ 5 := by
  rw [query_aggregate, List.length_take]
  exact min_le_left _ _

lemma query_aggregate_sorted (t : List CaseRow) :
    List.Sorted byTotalDesc (query_aggregate t) :=
  List.Pairwise.sublist (List.take_sublist _ _)
    (List.sorted_insertionSort byTotalDesc (groupedTotals t))

lemma groupedTotals_fst (t : List CaseRow) :
    (groupedTotals t).map Prod.fst = stateKeys t := by
  simp [groupedTotals, List.map_map, Function.comp_def]

lemma query_aggregate_nodup (t : List CaseRow) :
    ((query_aggregate t).map Prod.fst).Nodup := by
  have hd : ((groupedTotals t).map Prod.fst).Nodup := by
    rw [groupedTotals_fst]
    exact List.nodup_dedup _
  have hs : ((List.insertionSort byTotalDesc (groupedTotals t)).map
      Prod.fst).Nodup :=
    (((List.perm_insertionSort byTotalDesc (groupedTotals t)).map
      Prod.fst).nodup_iff).2 hd
  rw [query_aggregate, List.map_take]
  exact List.Nodup.sublist (List.take_sublist _ _) hs

/-- Claim C1: for every raw dataset, after transform_data returns, every
declared field of every output record is present (by the fixed schema)
and non-null; missing/null values in projected columns were replaced by
the numeric fill 0, so no field of the output is null. -/
theorem transform_fields_nonNull (d : RawDataset) (out : List CleanRecord)
    (rec : CleanRecord) (hok : transform_data d = Except.ok out)
    (hmem : rec ∈ out) :
    rec.date ≠ Value.null ∧ rec.county ≠ Value.null ∧
    rec.state ≠ Value.null ∧ rec.fully_vaccinated_pct ≠ Value.null ∧
    rec.at_least_one_dose ≠ Value.null ∧ rec.one_dose_pct ≠ Value.null := by
  rw [transform_data_ok hok] at hmem
  rcases List.mem_filter.1 hmem with ⟨hmm, _⟩
  rcases List.mem_map.1 hmm with ⟨r, _, rfl⟩
  rw [processRow_eq]
  exact ⟨fill0_ne_null _, fill0_ne_null _, fill0_ne_null _, fill0_ne_null _,
    fill0_ne_null _, fill0_ne_null _⟩

/-- Witness for C1 at a concrete one-row dataset. -/
theorem transform_fields_nonNull_w :
    recFull.date ≠ Value.null ∧ recFull.county ≠ Value.null ∧
    recFull.state ≠ Value.null ∧ recFull.fully_vaccinated_pct ≠ Value.null ∧
    recFull.at_least_one_dose ≠ Value.null ∧
    recFull.one_dose_pct ≠ Value.null :=
  transform_fields_nonNull dFull [recFull] recFull rfl
    (List.mem_singleton_self recFull)

/-- Claim C2 counterexample: a raw row whose county is null does survive
the filter, but its county in the output is the number 0, not the empty
string the claim asserts. -/
theorem null_county_cex :
    transform_data dNullCounty = Except.ok [recNullCounty] ∧
    recNullCounty.county = Value.num 0 ∧
    recNullCounty.county ≠ Value.str "" :=
  ⟨rfl, rfl, by decide⟩

/-- Claim C2 (amended): the fill runs before the empty-county filter, so
a raw row with a null county is not dropped; it appears in the output
with county equal to the numeric fill value 0 (not the empty string). -/
theorem null_county_survives_as_zero (d : RawDataset)
    (out : List CleanRecord) (r : RawRecord)
    (hok : transform_data d = Except.ok out) (hr : r ∈ d)
    (hc : getVal r "recip_county" = Value.null) :
    processRow r ∈ out ∧ (processRow r).county = Value.num 0 := by
  have hcounty : (processRow r).county = Value.num 0 := by
    rw [processRow_eq]
    simp [hc, fill0]
  exact ⟨processRow_mem_ok hok hr (by rw [hcounty]; decide), hcounty⟩

/-- Witness for C2's amended theorem at a concrete dataset. -/
theorem null_county_survives_as_zero_w :
    processRow nullCountyRow ∈ [recNullCounty] ∧
    (processRow nullCountyRow).county = Value.num 0 :=
  null_county_survives_as_zero dNullCounty [recNullCounty] nullCountyRow rfl
    (List.mem_singleton_self nullCountyRow) rfl

/-- Claim C3: the CleanDataset returned by transform_data contains no
record whose county field is the empty string. -/
theorem no_empty_county_in_output (d : RawDataset) (out : List CleanRecord)
    (rec : CleanRecord) (hok : transform_data d = Except.ok out)
    (hmem : rec ∈ out) : rec.county ≠ Value.str "" := by
  rw [transform_data_ok hok] at hmem
  rcases List.mem_filter.1 hmem with ⟨_, hp⟩
  simpa using hp

/-- Witness for C3 at a concrete one-row dataset. -/
theorem no_empty_county_in_output_w : recFull.county ≠ Value.str "" :=
  no_empty_county_in_output dFull [recFull] recFull rfl
    (List.mem_singleton_self recFull)

/-- Claim C4 counterexample: transform_data applies no uppercasing; the
raw state "ca" reaches the output unchanged, not as "CA". -/
theorem state_not_uppercased_cex :
    transform_data dFull = Except.ok [recFull] ∧
    getVal fullRow "recip_state" = Value.str "ca" ∧
    recFull.state ≠ specUppercase (Value.str "ca") :=
  ⟨rfl, rfl, by decide⟩

/-- Claim C4 (amended): the state field of a transformed row equals its
raw recip_state value unchanged (no case normalization), except that a
null raw value becomes 0 via the uniform fill; such a row reaches the
output whenever its county is not the empty string. -/
theorem state_passes_through (d : RawDataset) (out : List CleanRecord)
    (r : RawRecord) (hok : transform_data d = Except.ok out) (hr : r ∈ d) :
    (processRow r).state = fill0 (getVal r "recip_state") ∧
    ((processRow r).county ≠ Value.str "" → processRow r ∈ out) := by
  constructor
  · rw [processRow_eq]
  · exact fun hc => processRow_mem_ok hok hr hc

/-- Witness for C4's amended theorem at a concrete dataset. -/
theorem state_passes_through_w :
    (processRow fullRow).state = fill0 (getVal fullRow "recip_state") ∧
    processRow fullRow ∈ [recFull] :=
  ⟨(state_passes_through dFull [recFull] fullRow rfl
      (List.mem_singleton_self fullRow)).1,
   (state_passes_through dFull [recFull] fullRow rfl
      (List.mem_singleton_self fullRow)).2 (by decide)⟩

/-- Claim C5 counterexample: transform_data is not free of side effects —
the in-place date coercion changes the caller's dataset when a date
string is unparseable. -/
theorem transform_mutates_input_cex :
    transform_data_input_after dBadDate ≠ dBadDate := by decide

/-- Claim C5 (amended): the call is deterministic (it is a function of
its input), but it mutates the input: only the date column is
reassigned; row count and every other column of the input are
unchanged. -/
theorem transform_effect_frame (d : RawDataset) (k : String) (i : Nat)
    (hk : k ≠ "date") :
    (transform_data_input_after d).length = d.length ∧
    ((transform_data_input_after d)[i]?).map (fun r => getVal r k) =
      (d[i]?).map (fun r => getVal r k) := by
  unfold transform_data_input_after
  by_cases hc : hasCol d "date"
  · rw [if_pos hc]
    refine ⟨List.length_map _ _, ?_⟩
    rw [List.getElem?_map]
    cases d[i]? with
    | none => rfl
    | some r =>
      simp [coerceRow, getVal_setField_ne r k "date" _ hk]
  · rw [if_neg hc]
    exact ⟨rfl, rfl⟩

/-- Witness for C5's amended theorem at a concrete dataset and column. -/
theorem transform_effect_frame_w :
    (transform_data_input_after dNullCounty).length = dNullCounty.length ∧
    ((transform_data_input_after dNullCounty)[0]?).map
        (fun r => getVal r "recip_state") =
      (dNullCounty[0]?).map (fun r => getVal r "recip_state") :=
  transform_effect_frame dNullCounty "recip_state" 0 (by decide)

/-- Claim C6 counterexample: 201 is an HTTP success status, yet
extract_data raises (carrying 201) instead of returning the decoded
body — the code accepts exactly status 200. -/
theorem success_status_raises_cex :
    specSuccessStatus 201 ∧
    extract_data { status := 201, body := [] } =
      Except.error { status := 201 } :=
  ⟨by decide, rfl⟩

/-- Claim C6 (amended): success for extract_data is exactly status 200:
on 200 it returns the decoded body unchanged (field names and row order
as received); on any other status — including the other 2xx success
codes — it raises an error carrying that status code; being a single
function of one response, it neither retries nor partially succeeds. -/
theorem extract_status_behavior (resp : HttpResponse) :
    (resp.status = 200 → extract_data resp = Except.ok resp.body) ∧
    (resp.status ≠ 200 →
      extract_data resp = Except.error { status := resp.status }) := by
  constructor <;> intro h <;> simp [extract_data, h]

/-- Witness for C6's amended theorem at concrete responses. -/
theorem extract_status_behavior_w :
    extract_data { status := 200, body := dFull } = Except.ok dFull ∧
    extract_data { status := 404, body := dFull } =
      Except.error { status := 404 } :=
  ⟨(extract_status_behavior { status := 200, body := dFull }).1 rfl,
   (extract_status_behavior { status := 404, body := dFull }).2 (by decide)⟩

/-- Claim C7 counterexample: when the table write raises, the sqlite3
connection opened by load_data_to_db is never closed — the code has no
try/finally around to_sql. -/
theorem conn_leak_on_failure_cex :
    (load_data_to_db [] "vaccination_data.db" gsW true).connClosed = false :=
  rfl

/-- Claim C7 (amended): the connection opened by load_data_to_db is
closed on the success path and only there; when the write raises, the
error propagates and the connection is left open. -/
theorem conn_closed_iff_success (data : List CleanRecord) (db : String)
    (gs : GlobalStore) :
    (load_data_to_db data db gs false).connClosed = true ∧
    (load_data_to_db data db gs false).result = Except.ok () ∧
    (load_data_to_db data db gs true).connClosed = false ∧
    (load_data_to_db data db gs true).result = Except.error "LoadError" :=
  ⟨rfl, rfl, rfl, rfl⟩

/-- Claim C8: a successful load leaves the vaccinations table holding
exactly the loaded rows regardless of prior contents (replace
semantics), and two successive pipeline runs on byte-identical
responses leave the table with identical contents (idempotence). -/
theorem load_replace_and_idempotent (gs : GlobalStore)
    (data : List CleanRecord) (resp : HttpResponse) (gs1 gs2 : GlobalStore) :
    (load_data_to_db data "vaccination_data.db" gs false).store
        "vaccination_data.db" "vaccinations" = data.map encodeClean ∧
    (mainPipeline resp gs false = Except.ok gs1 →
      mainPipeline resp gs1 false = Except.ok gs2 →
      gs2 "vaccination_data.db" "vaccinations" =
        gs1 "vaccination_data.db" "vaccinations") := by
  constructor
  · simp [load_data_to_db]
  · intro h1 h2
    rcases mainPipeline_ok h1 with ⟨raw1, clean1, he1, ht1, hg1⟩
    rcases mainPipeline_ok h2 with ⟨raw2, clean2, he2, ht2, hg2⟩
    have hraw : raw1 = raw2 := Except.ok.inj (he1.symm.trans he2)
    subst hraw
    have hclean : clean1 = clean2 := Except.ok.inj (ht1.symm.trans ht2)
    subst hclean
    rw [hg1, hg2]
    simp [load_data_to_db]

/-- Witness for C8 at a concrete response and store. -/
theorem load_replace_and_idempotent_w :
    (load_data_to_db cleanFullRows "vaccination_data.db" gsW false).store
        "vaccination_data.db" "vaccinations" = cleanFullRows.map encodeClean ∧
    gs2W "vaccination_data.db" "vaccinations" =
      gs1W "vaccination_data.db" "vaccinations" :=
  ⟨(load_replace_and_idempotent gsW cleanFullRows respW gs1W gs2W).1,
   (load_replace_and_idempotent gsW cleanFullRows respW gs1W gs2W).2 rfl rfl⟩

/-- Claim C9: for every covid_cases table, query_data returns at most 5
pairs, with pairwise-distinct states, each total being the sum of the
new_case values of that state's rows, ordered by total descending. -/
theorem query_top5_spec (gs : GlobalStore) (db : String) (p : String × Int) :
    (query_data gs db).length ≤ 5 ∧
    List.Sorted byTotalDesc (query_data gs db) ∧
    ((query_data gs db).map Prod.fst).Nodup ∧
    (p ∈ query_data gs db →
      p.2 = sumState ((gs db "covid_cases").map decodeCaseRow) p.1) :=
  ⟨query_aggregate_length _, query_aggregate_sorted _,
   query_aggregate_nodup _,
   fun hp => groupedTotals_mem (query_aggregate_subset _ hp)⟩

/-- Witness for C9 at a concrete covid_cases table. -/
theorem query_top5_spec_w :
    (query_data gsQ "healthcare_data.db").length ≤ 5 ∧
    List.Sorted byTotalDesc (query_data gsQ "healthcare_data.db") ∧
    ((query_data gsQ "healthcare_data.db").map Prod.fst).Nodup ∧
    ("B", (50 : Int)).2 =
      sumState ((gsQ "healthcare_data.db" "covid_cases").map decodeCaseRow)
        ("B", (50 : Int)).1 :=
  ⟨(query_top5_spec gsQ "healthcare_data.db" ("B", 50)).1,
   (query_top5_spec gsQ "healthcare_data.db" ("B", 50)).2.1,
   (query_top5_spec gsQ "healthcare_data.db" ("B", 50)).2.2.1,
   (query_top5_spec gsQ "healthcare_data.db" ("B", 50)).2.2.2 (by decide)⟩

/-- Claim C10: the pipeline with default arguments writes only to
vaccination_data.db, while query_data reads healthcare_data.db; a
pipeline run therefore never changes what query_data reads, and
query_data's result never reflects the loaded data. -/
theorem pipeline_query_disjoint (resp : HttpResponse) (gs gs1 : GlobalStore)
    (t : String) (h : mainPipeline resp gs false = Except.ok gs1) :
    gs1 "healthcare_data.db" t = gs "healthcare_data.db" t ∧
    query_data gs1 "healthcare_data.db" =
      query_data gs "healthcare_data.db" := by
  rcases mainPipeline_ok h with ⟨raw, clean, _, _, hg⟩
  subst hg
  have hfr : ∀ tb,
      (load_data_to_db clean "vaccination_data.db" gs false).store
        "healthcare_data.db" tb = gs "healthcare_data.db" tb := by
    intro tb
    simp [load_data_to_db]
  refine ⟨hfr t, ?_⟩
  unfold query_data
  rw [hfr "covid_cases"]

/-- Witness for C10 at a concrete successful pipeline run. -/
theorem pipeline_query_disjoint_w :
    gs1W "healthcare_data.db" "covid_cases" =
      gsW "healthcare_data.db" "covid_cases" ∧
    query_data gs1W "healthcare_data.db" =
      query_data gsW "healthcare_data.db" :=
  pipeline_query_disjoint respW gsW gs1W "covid_cases" rfl
